import Mathlib

/-
Shallow embedding of the ParagraphImage Editor.js block tool
(src/src/index.js of ScaleMeUp/editorjs-paragraph-image).

JavaScript values that may be absent (`undefined` / `null`) are modelled as
`Option`; a JS object with unknown extra properties carries an `extra`
association list of opaque string fields.  Machine effects (DOM mutation,
`setTimeout`, the host notifier) are modelled by explicit state passing:
each handler returns the updated state together with the list of delayed
actions it scheduled (the `setTimeout` bodies, tagged with their delay in
milliseconds).  A JS runtime error (property access on `undefined`) is
modelled with `Except String`.
-/

namespace ParagraphImage

/-- A file record returned by the upload backend: `url` is required by the
wire contract but may in fact be absent, and any further fields are opaque
passthrough data. -/
structure FileRecord where
  url : Option String
  extra : List (String × String)
deriving DecidableEq

/-- The persisted block record (`ParagraphImageData` in src/src/index.js).
Every field may be absent, since the constructor stores the supplied saved
data without filling defaults. -/
structure JsData where
  text : Option String
  title : Option String
  description : Option String
  image : Option FileRecord
  extra : List (String × String)
deriving DecidableEq

/-- A saved-data record with every field absent (the JS empty object). -/
def emptyJsData : JsData :=
  { text := none, title := none, description := none, image := none, extra := [] }

/-- JS `x || ''` for a possibly-absent string: both `undefined` and the
empty string yield the empty string. -/
def orEmpty (v : Option String) : String :=
  v.getD ""

/-- JS `String.prototype.trim`: strips leading and trailing whitespace.
Defined over the character list so that it evaluates on concrete inputs. -/
def jsTrim (s : String) : String :=
  String.mk (((s.data.dropWhile Char.isWhitespace).reverse.dropWhile Char.isWhitespace).reverse)

/-- JS string interpolation of a possibly-undefined value: `undefined`
prints as the literal string "undefined". -/
def jsToString (v : Option String) : String :=
  match v with
  | some s => s
  | none => "undefined"

/-- One editable DOM region, as read by `save`: its `innerHTML` and its
`textContent` (both possibly null/undefined, guarded by `|| ''` in source). -/
structure DomNode where
  innerHTML : Option String
  textContent : Option String
deriving DecidableEq

/-- The three editable regions held in `this.nodes` that `save` reads. -/
structure Nodes where
  text : DomNode
  title : DomNode
  description : DomNode
deriving DecidableEq

/-- `save(toolsContent)` from src/src/index.js lines 194-202: reads
`this.nodes.text.innerHTML`, `this.nodes.title.textContent` and
`this.nodes.description.textContent`, each `|| ''` then trimmed, and
`Object.assign`s the three fields into `this.data`, returning `this.data`.
The in-place mutation is modelled by returning the updated record. -/
def save (nodes : Nodes) (data : JsData) : JsData :=
  { data with
    text := some (jsTrim (orEmpty nodes.text.innerHTML))
    title := some (jsTrim (orEmpty nodes.title.textContent))
    description := some (jsTrim (orEmpty nodes.description.textContent)) }

/-- `validate(savedData)` from src/src/index.js lines 355-357:
`savedData.text.trim() !== ''`.  If `text` is absent, the method call
`.trim()` on `undefined` throws, modelled as `Except.error`. -/
def validate (savedData : JsData) : Except String Bool :=
  match savedData.text with
  | none => Except.error "TypeError: cannot read trim of undefined"
  | some t => Except.ok (jsTrim t ≠ "")

/-- C3: for every saved record whose `text` field is a string, `validate`
returns true iff the trimmed `text` is non-empty, and the result depends
only on the `text` field (image, title and description are irrelevant). -/
theorem validate_iff_trim_nonempty (d : JsData) (t : String) (h : d.text = some t) :
    (validate d = Except.ok true ↔ jsTrim t ≠ "") ∧
    (∀ d2 : JsData, d2.text = d.text → validate d2 = validate d) := by
  constructor
  · simp [validate, h]
  · intro d2 h2
    simp [validate, h2]

/-- Witness for C3 at a concrete record: text "  hi  " trims to non-empty,
so `validate` returns true. -/
theorem validate_iff_trim_nonempty_witness :
    ({ emptyJsData with text := some "  hi  " } : JsData).text = some "  hi  " ∧
    (validate { emptyJsData with text := some "  hi  " } = Except.ok true ↔
      jsTrim "  hi  " ≠ "") := by
  refine ⟨rfl, ?_⟩
  exact (validate_iff_trim_nonempty { emptyJsData with text := some "  hi  " } "  hi  " rfl).1

/-- C4: `save` writes the trimmed current contents of the three regions
into the record (text from `innerHTML`, title and description from
`textContent`), leaves the rest of the record as it was, and returns the
updated record itself (the source returns `this.data` by reference after
`Object.assign`); an empty or absent region yields the empty string,
never an absent field. -/
theorem save_reads_trimmed_regions (nodes : Nodes) (data : JsData) :
    save nodes data =
      { data with
        text := some (jsTrim (orEmpty nodes.text.innerHTML))
        title := some (jsTrim (orEmpty nodes.title.textContent))
        description := some (jsTrim (orEmpty nodes.description.textContent)) } ∧
    (nodes.text.innerHTML = none ∨ nodes.text.innerHTML = some "" →
      (save nodes data).text = some "") ∧
    (nodes.title.textContent = none ∨ nodes.title.textContent = some "" →
      (save nodes data).title = some "") ∧
    (nodes.description.textContent = none ∨ nodes.description.textContent = some "" →
      (save nodes data).description = some "") := by
  refine ⟨rfl, ?_, ?_, ?_⟩ <;>
    rintro (h | h) <;> simp [save, orEmpty, h] <;> decide

/-- Witness for C4 at concrete regions: the title region is empty and the
description region is absent, so both fields come out as the empty string. -/
theorem save_reads_trimmed_regions_witness :
    (save
        { text := { innerHTML := some " a b ", textContent := some "a b" }
          title := { innerHTML := some "", textContent := some "" }
          description := { innerHTML := none, textContent := none } }
        emptyJsData).title = some "" ∧
    (save
        { text := { innerHTML := some " a b ", textContent := some "a b" }
          title := { innerHTML := some "", textContent := some "" }
          description := { innerHTML := none, textContent := none } }
        emptyJsData).description = some "" := by
  have h := save_reads_trimmed_regions
    { text := { innerHTML := some " a b ", textContent := some "a b" }
      title := { innerHTML := some "", textContent := some "" }
      description := { innerHTML := none, textContent := none } }
    emptyJsData
  exact ⟨h.2.2.1 (Or.inr rfl), h.2.2.2 (Or.inl rfl)⟩

/-- C10 (frame condition): `save` only `Object.assign`s the three string
fields; the `image` field and every other property of the record are
untouched. -/
theorem save_frame (nodes : Nodes) (data : JsData) :
    (save nodes data).image = data.image ∧ (save nodes data).extra = data.extra :=
  ⟨rfl, rfl⟩

/-- The caller-supplied tool configuration as received by the constructor:
each property may be absent. -/
structure RawConfig where
  endpoint : Option String
  field : Option String
  types : Option String
  additionalRequestData : Option (List (String × String))
  additionalRequestHeaders : Option (List (String × String))
  textPlaceholder : Option String
  titlePlaceholder : Option String
  descriptionPlaceholder : Option String
deriving DecidableEq

/-- A configuration object with no property set (the JS empty object). -/
def emptyRawConfig : RawConfig :=
  { endpoint := none, field := none, types := none, additionalRequestData := none,
    additionalRequestHeaders := none, textPlaceholder := none,
    titlePlaceholder := none, descriptionPlaceholder := none }

/-- The resolved `this.config` built by the constructor. -/
structure ResolvedConfig where
  endpoint : String
  field : String
  types : String
  additionalRequestData : List (String × String)
  additionalRequestHeaders : List (String × String)
  textPlaceholder : String
  titlePlaceholder : String
  descriptionPlaceholder : String
deriving DecidableEq

/-- JS `x || d` for a string property: `undefined` and the empty string are
falsy, so both fall back to the default. -/
def jsOrString (v : Option String) (d : String) : String :=
  match v with
  | some s => if s = "" then d else s
  | none => d

/-- JS `x || d` for an object property: every object is truthy, so only an
absent property falls back to the default. -/
def jsOrObj (v : Option (List (String × String))) (d : List (String × String)) :
    List (String × String) :=
  v.getD d

/-- The `this.config` assignment of the constructor, src/src/index.js
lines 63-72: each field is `config.f || default`. -/
def resolveConfig (config : RawConfig) : ResolvedConfig :=
  { endpoint := jsOrString config.endpoint ""
    field := jsOrString config.field "image"
    types := jsOrString config.types "image/*"
    additionalRequestData := jsOrObj config.additionalRequestData []
    additionalRequestHeaders := jsOrObj config.additionalRequestHeaders []
    textPlaceholder := jsOrString config.textPlaceholder "Text"
    titlePlaceholder := jsOrString config.titlePlaceholder "Title"
    descriptionPlaceholder := jsOrString config.descriptionPlaceholder "Description" }

/-- The data-relevant part of the constructor, src/src/index.js lines 52-87:
it builds `this.config` by reading properties of `config` (which throws if
`config` itself is `undefined`) and stores the supplied saved data as
`this.data` unchanged (`this.data = data`, no defaults merged). -/
def construct (config : Option RawConfig) (data : JsData) :
    Except String (ResolvedConfig × JsData) :=
  match config with
  | none => Except.error "TypeError: cannot read endpoint of undefined"
  | some c => Except.ok (resolveConfig c, data)

/-- C6 counterexample: constructing from the empty saved-data object leaves
every BlockData field undefined — the constructor stores `data` as is and
merges no defaults, so `text`, `title`, `description` and `image` are not
all defined after construction, contrary to the claim. -/
theorem construct_empty_data_fields_undefined :
    construct (some emptyRawConfig) emptyJsData =
      Except.ok (resolveConfig emptyRawConfig, emptyJsData) ∧
    emptyJsData.text.isSome = false ∧ emptyJsData.title.isSome = false ∧
    emptyJsData.description.isSome = false ∧ emptyJsData.image.isSome = false :=
  ⟨rfl, rfl, rfl, rfl, rfl⟩

/-- C6 amended: at construction, BlockData is taken to be the externally
supplied saved-data record unchanged (`this.data = data`); no defaults are
merged, so a field absent from the saved data stays undefined. -/
theorem construct_stores_data_unchanged (c : RawConfig) (d : JsData) :
    construct (some c) d = Except.ok (resolveConfig c, d) :=
  rfl

/-- C7 counterexample: when the configuration argument itself is absent
(`undefined`), the constructor's very first property read
(`config.endpoint`) throws, so construction does crash. -/
theorem construct_absent_config_throws :
    construct none emptyJsData =
      Except.error "TypeError: cannot read endpoint of undefined" :=
  rfl

/-- C7 amended: for every configuration OBJECT supplied — including one
supplying none of the fields — construction succeeds and every config field
receives its documented default when absent (endpoint "", field "image",
types "image/*", empty request data and headers, placeholders "Text",
"Title", "Description"); only a missing configuration object crashes. -/
theorem construct_config_defaults (c : RawConfig) (d : JsData) :
    construct (some c) d = Except.ok (resolveConfig c, d) ∧
    resolveConfig emptyRawConfig =
      { endpoint := "", field := "image", types := "image/*",
        additionalRequestData := [], additionalRequestHeaders := [],
        textPlaceholder := "Text", titlePlaceholder := "Title",
        descriptionPlaceholder := "Description" } :=
  ⟨rfl, rfl⟩

/-- Inline style of the image region div: `unstyled` means no style
attribute (after `removeAttribute` or on a fresh element); `backgroundNone`
is `background: none` set by `addLoader`; `backgroundUrl u` is the
`url(u) center center / contain no-repeat` background set by `setImage`;
`placeholder` is the grey placeholder background set by
`setImagePlaceholder`. -/
inductive ImageStyle
  | unstyled
  | backgroundNone
  | backgroundUrl (url : String)
  | placeholder
deriving DecidableEq

/-- The image region div: whether the loader CSS class is present, and its
inline style. -/
structure ImageNode where
  hasLoaderClass : Bool
  style : ImageStyle
deriving DecidableEq

/-- A freshly created image div (`make('div', this.CSS.image)`). -/
def emptyImageNode : ImageNode :=
  { hasLoaderClass := false, style := ImageStyle.unstyled }

/-- `setImage(url)`, src/src/index.js lines 318-320: sets the background
to the given url (only the style is touched). -/
def setImage (url : String) (n : ImageNode) : ImageNode :=
  { n with style := ImageStyle.backgroundUrl url }

/-- `setImagePlaceholder()`, src/src/index.js lines 325-327: sets the
background to the placeholder graphic (only the style is touched). -/
def setImagePlaceholder (n : ImageNode) : ImageNode :=
  { n with style := ImageStyle.placeholder }

/-- The visual states of the spec, derived from the image node: the loader
class shows the loading indicator; a url background shows a loaded image;
anything else (placeholder, unstyled, background none) is the empty
state. -/
inductive VisualState
  | Empty
  | Loading
  | Loaded
deriving DecidableEq

/-- Derives the spec's visual state from the image node. -/
def visualStateOf (n : ImageNode) : VisualState :=
  if n.hasLoaderClass then VisualState.Loading
  else
    match n.style with
    | ImageStyle.backgroundUrl _ => VisualState.Loaded
    | _ => VisualState.Empty

/-- The image branch of `render()`, src/src/index.js lines 266-272: on a
fresh image div, `if (image)` (truthy test: any object passes, null and
undefined do not) either `setImage(image.url)` — where an absent `url`
interpolates as the string "undefined" — or `setImagePlaceholder()`. -/
def renderImageNode (image : Option FileRecord) : ImageNode :=
  match image with
  | some f => setImage (jsToString f.url) emptyImageNode
  | none => setImagePlaceholder emptyImageNode

/-- C8 counterexample: restoring saved data whose image is an object
without a `url` does not degrade to the placeholder; render sets the
background to `url('undefined')`, so the visual state is not Empty. -/
theorem render_malformed_image_not_empty :
    renderImageNode (some { url := none, extra := [] }) =
      { hasLoaderClass := false, style := ImageStyle.backgroundUrl "undefined" } ∧
    visualStateOf (renderImageNode (some { url := none, extra := [] })) ≠
      VisualState.Empty :=
  ⟨rfl, by decide⟩

/-- C8 amended: render never crashes on malformed image data; it produces
the Empty placeholder exactly when `image` is null/absent, while for any
truthy image object — even one lacking `url` — it sets a url background
(the literal string "undefined" when `url` is absent) instead of the
placeholder. -/
theorem render_image_branch (image : Option FileRecord) :
    (image = none →
      renderImageNode image = setImagePlaceholder emptyImageNode ∧
      visualStateOf (renderImageNode image) = VisualState.Empty) ∧
    (∀ f : FileRecord, image = some f →
      renderImageNode image = setImage (jsToString f.url) emptyImageNode) := by
  constructor
  · rintro rfl
    exact ⟨rfl, rfl⟩
  · rintro f rfl
    rfl

/-- Witness for C8 amended at both concrete inputs: a null image gives the
placeholder and Empty state; an image object lacking url gives the
"undefined" url background. -/
theorem render_image_branch_witness :
    (renderImageNode none = setImagePlaceholder emptyImageNode ∧
      visualStateOf (renderImageNode none) = VisualState.Empty) ∧
    renderImageNode (some { url := none, extra := [] }) =
      setImage (jsToString (none : Option String)) emptyImageNode :=
  ⟨(render_image_branch none).1 rfl,
   (render_image_branch (some { url := none, extra := [] })).2
     { url := none, extra := [] } rfl⟩

/-- The rich-text region as seen by `onKeyUp`: its markup and its plain
text content (kept in sync by the DOM; setting `innerHTML` to the empty
string also empties `textContent`). -/
structure TextRegion where
  innerHTML : String
  textContent : String
deriving DecidableEq

/-- The body of `onKeyUp(e)`, src/src/index.js lines 335-345, executed
with a given resolution of `this.nodes`: for keys other than Backspace and
Delete it returns before touching `this`; otherwise it reads
`this.nodes.text.textContent`, which throws when the receiver has no
`nodes` property, and sets `innerHTML` to the empty string when the text
content is empty. -/
def onKeyUpWith (nodesText : Option TextRegion) (code : String) (region : TextRegion) :
    Except String TextRegion :=
  if code ≠ "Backspace" ∧ code ≠ "Delete" then Except.ok region
  else
    match nodesText with
    | none => Except.error "TypeError: cannot read text of undefined"
    | some n =>
      Except.ok (if n.textContent = "" then
        { region with innerHTML := "", textContent := "" }
      else region)

/-- `onKeyUp` as actually registered at src/src/index.js line 243:
`addEventListener('keyup', this.onKeyUp)` passes the method unbound, so at
call time `this` is the DOM element the listener was attached to.  A div
element has no `nodes` property, so `this.nodes` is `undefined`. -/
def registeredKeyUp (code : String) (region : TextRegion) : Except String TextRegion :=
  onKeyUpWith none code region

/-- `onKeyUp` as it would behave if it were invoked with the tool instance
as receiver, in which case `this.nodes.text` is the region itself. -/
def onKeyUpBound (code : String) (region : TextRegion) : Except String TextRegion :=
  onKeyUpWith (some region) code region

/-- C9: the handler, as registered, throws on the very input it was meant
to normalize.  A Backspace key release that left the region with the
residual markup "<br>" and empty text content makes the handler throw a
TypeError (the listener is registered unbound, so `this.nodes` is
undefined), while the bound body — and the claim, which matches the
method's own documentation — would have normalized the markup to the empty
string.  Other keys return before touching `this` and change nothing. -/
theorem registered_keyup_throws_on_backspace :
    registeredKeyUp "Backspace"
        { innerHTML := "<br>", textContent := "" } =
      Except.error "TypeError: cannot read text of undefined" ∧
    onKeyUpBound "Backspace" { innerHTML := "<br>", textContent := "" } =
      Except.ok { innerHTML := "", textContent := "" } ∧
    registeredKeyUp "KeyA" { innerHTML := "<br>", textContent := "" } =
      Except.ok { innerHTML := "<br>", textContent := "" } :=
  ⟨rfl, rfl, rfl⟩

/-- `LOADER_DELAY`, src/src/index.js line 9: the fixed delay in
milliseconds before the loader is removed. -/
def LOADER_DELAY : Nat := 500

/-- One `api.notifier.show` call. -/
structure Notification where
  message : String
  style : String
deriving DecidableEq

/-- The two `setTimeout` bodies the tool schedules: the body of
`showFullImage` and the body of `stopLoading`. -/
inductive Delayed
  | showFull
  | stopLoad
deriving DecidableEq

/-- The parsed body of an upload response per the wire contract:
`success` is a number (1 for success, 0 for failure) and `file` is a
possibly-absent object. -/
structure ResponseBody where
  success : Nat
  file : Option FileRecord
deriving DecidableEq

/-- The mutable state a single block instance owns during uploads: the
image region div, `this.data.image`, the list of notifier calls made so
far, and the number of upload requests started. -/
structure BlockState where
  imageNode : ImageNode
  image : Option FileRecord
  notifierCalls : List Notification
  uploadRequests : Nat
deriving DecidableEq

/-- JS truthiness of `success && file && file.url`: a number is truthy iff
non-zero, an object is always truthy, a string is truthy iff non-empty,
and an absent value is falsy. -/
def uploadGuard (success : Nat) (file : Option FileRecord) : Bool :=
  (success != 0) &&
    (match file with
     | some f => match f.url with
       | some u => u != ""
       | none => false
     | none => false)

/-- `onUpload(response)`, src/src/index.js lines 115-123: if
`success && file && file.url` is truthy, set `this.data.image = file` and
schedule the `showFullImage` timeout; otherwise do nothing at all (no
loader removal, no notification). -/
def onUpload (body : ResponseBody) (s : BlockState) :
    BlockState × List (Nat × Delayed) :=
  if uploadGuard body.success body.file then
    ({ s with image := body.file }, [(LOADER_DELAY, Delayed.showFull)])
  else (s, [])

/-- `stopLoading()`, src/src/index.js lines 138-143: schedules a timeout
that removes the loader class and the whole style attribute. -/
def stopLoading : List (Nat × Delayed) :=
  [(LOADER_DELAY, Delayed.stopLoad)]

/-- `uploadingFailed(errorMessage)`, src/src/index.js lines 157-164:
calls `stopLoading()` and makes one notifier call with style "error". -/
def uploadingFailed (errorMessage : String) (s : BlockState) :
    BlockState × List (Nat × Delayed) :=
  ({ s with notifierCalls :=
      s.notifierCalls ++ [{ message := errorMessage, style := "error" }] },
   stopLoading)

/-- `addLoader()`, src/src/index.js lines 148-151: sets
`background: none` and adds the loader class. -/
def addLoader (s : BlockState) : BlockState :=
  { s with imageNode := { hasLoaderClass := true, style := ImageStyle.backgroundNone } }

/-- The click handler on the image region, src/src/index.js lines 291-297:
starts an upload; the `onPreview` callback shows the loader. -/
def imageClick (s : BlockState) : BlockState :=
  { addLoader s with uploadRequests := s.uploadRequests + 1 }

/-- Runs a scheduled timeout body.  `showFull` (src/src/index.js lines
128-133) removes the loader class and calls
`setImage(this.data.image.url)`, which throws if `this.data.image` is null
at fire time; `stopLoad` (lines 138-143) removes the loader class and the
style attribute. -/
def runDelayed (d : Delayed) (s : BlockState) : Except String BlockState :=
  match d with
  | Delayed.stopLoad =>
    Except.ok { s with imageNode := { hasLoaderClass := false, style := ImageStyle.unstyled } }
  | Delayed.showFull =>
    match s.image with
    | none => Except.error "TypeError: cannot read url of null"
    | some f =>
      Except.ok { s with imageNode :=
        { hasLoaderClass := false, style := ImageStyle.backgroundUrl (jsToString f.url) } }

/-- The outcome of one upload attempt as it reaches the Uploader module:
either a parsed response body, or a transport-level network error. -/
inductive UploadOutcome
  | response (body : ResponseBody)
  | networkError (message : String)
deriving DecidableEq

/-- Well-formedness of a success response per the wire contract:
`success` equals 1 and the file record is present with a `url`. -/
def wellFormedSuccess (b : ResponseBody) : Bool :=
  (b.success == 1) &&
    (match b.file with
     | some f => f.url.isSome
     | none => false)

/-- Modelled from the spec: src/uploader.js (the Uploader module imported
by src/src/index.js) is not among the provided sources.  Per spec section
4.1, on a well-formed success response it invokes the success callback
(`onUpload`) with the full response, and on any network failure,
malformed/absent body, or response lacking `file.url` it invokes the
failure callback (`uploadingFailed`) with a human-readable error string;
exactly one of the two fires per attempt. -/
def uploaderDispatch (o : UploadOutcome) (s : BlockState) :
    BlockState × List (Nat × Delayed) :=
  match o with
  | UploadOutcome.networkError m => uploadingFailed m s
  | UploadOutcome.response b =>
    if wellFormedSuccess b then onUpload b s
    else uploadingFailed "Can not upload an image, try another" s

/-- The failure cases enumerated by claim C1: a response body with
`success` equal to 0, a network error, or a success response whose file
record lacks `url`. -/
def failureAttempt (o : UploadOutcome) : Prop :=
  match o with
  | UploadOutcome.networkError _ => True
  | UploadOutcome.response b =>
    b.success = 0 ∨
    (b.success = 1 ∧ ∃ f : FileRecord, b.file = some f ∧ f.url = none)

/-- What claim C1 asserts of a failed attempt started in state `s`: the
only scheduled timeout is the `stopLoading` one after `LOADER_DELAY`;
`data.image` is unchanged; exactly one notifier call with style "error"
was appended; and firing the timeout leaves the image region without the
loader class and without a style attribute — the Empty visual state —
still with `data.image` unchanged and no further notifier call. -/
def failureOutcomeSpec (o : UploadOutcome) (s : BlockState) : Prop :=
  (uploaderDispatch o s).2 = [(LOADER_DELAY, Delayed.stopLoad)] ∧
  (uploaderDispatch o s).1.image = s.image ∧
  (∃ m : String, (uploaderDispatch o s).1.notifierCalls =
    s.notifierCalls ++ [{ message := m, style := "error" }]) ∧
  (∃ s2 : BlockState,
    runDelayed Delayed.stopLoad (uploaderDispatch o s).1 = Except.ok s2 ∧
    s2.imageNode = { hasLoaderClass := false, style := ImageStyle.unstyled } ∧
    visualStateOf s2.imageNode = VisualState.Empty ∧
    s2.image = s.image ∧
    s2.notifierCalls = (uploaderDispatch o s).1.notifierCalls)

/-- C1: every upload attempt whose outcome is a failure (success 0, a
network error, or a success response whose file record lacks url) ends,
after the fixed loader delay, in the Empty/unstyled image state, with
exactly one "error"-styled notifier call for the attempt and with
`data.image` unchanged. -/
theorem upload_failure_path (o : UploadOutcome) (s : BlockState)
    (h : failureAttempt o) : failureOutcomeSpec o s := by
  cases o with
  | networkError m =>
    exact ⟨rfl, rfl, ⟨m, rfl⟩, ⟨_, rfl, rfl, rfl, rfl, rfl⟩⟩
  | response b =>
    have hwf : wellFormedSuccess b = false := by
      rcases h with h0 | ⟨h1, f, hf, hu⟩
      · simp [wellFormedSuccess, h0]
      · simp [wellFormedSuccess, h1, hf, hu]
    have hd : uploaderDispatch (UploadOutcome.response b) s =
        uploadingFailed "Can not upload an image, try another" s := by
      simp [uploaderDispatch, hwf]
    unfold failureOutcomeSpec
    rw [hd]
    exact ⟨rfl, rfl, ⟨_, rfl⟩, ⟨_, rfl, rfl, rfl, rfl, rfl⟩⟩

/-- Witness for C1: the concrete failure response with success 0 and no
file, fired from a loading state. -/
theorem upload_failure_path_witness :
    failureAttempt (UploadOutcome.response { success := 0, file := none }) ∧
    failureOutcomeSpec (UploadOutcome.response { success := 0, file := none })
      { imageNode := { hasLoaderClass := true, style := ImageStyle.backgroundNone }
        image := none, notifierCalls := [], uploadRequests := 1 } :=
  ⟨Or.inl rfl,
   upload_failure_path (UploadOutcome.response { success := 0, file := none })
     { imageNode := { hasLoaderClass := true, style := ImageStyle.backgroundNone }
       image := none, notifierCalls := [], uploadRequests := 1 }
     (Or.inl rfl)⟩

/-- C2: every upload attempt whose response body is success 1 with a file
record carrying a non-empty url `u` sets `data.image` to the full file
record, raises no notification, and schedules exactly the fixed
`LOADER_DELAY` timeout (500 ms, the same constant the failure path uses);
firing it removes the loader class and renders `u` as the region's
background, the Loaded visual state, with `data.image.url` equal to `u`. -/
theorem upload_success_path (b : ResponseBody) (f : FileRecord) (u : String)
    (s : BlockState) (h1 : b.success = 1) (h2 : b.file = some f)
    (h3 : f.url = some u) (h4 : u ≠ "") :
    LOADER_DELAY = 500 ∧
    (uploaderDispatch (UploadOutcome.response b) s).2 =
      [(LOADER_DELAY, Delayed.showFull)] ∧
    (uploaderDispatch (UploadOutcome.response b) s).1.image = some f ∧
    (uploaderDispatch (UploadOutcome.response b) s).1.notifierCalls =
      s.notifierCalls ∧
    (∃ s2 : BlockState,
      runDelayed Delayed.showFull (uploaderDispatch (UploadOutcome.response b) s).1 =
        Except.ok s2 ∧
      s2.imageNode = { hasLoaderClass := false, style := ImageStyle.backgroundUrl u } ∧
      visualStateOf s2.imageNode = VisualState.Loaded ∧
      s2.image = some f ∧ f.url = some u) := by
  have hwf : wellFormedSuccess b = true := by
    simp [wellFormedSuccess, h1, h2, h3]
  have hg : uploadGuard b.success (some f) = true := by
    simp [uploadGuard, h1, h3, h4]
  have hd : uploaderDispatch (UploadOutcome.response b) s =
      ({ s with image := some f }, [(LOADER_DELAY, Delayed.showFull)]) := by
    simp [uploaderDispatch, hwf, onUpload, h2, hg]
  rw [hd]
  refine ⟨rfl, rfl, rfl, rfl, ?_⟩
  refine ⟨{ s with
            image := some f
            imageNode := { hasLoaderClass := false, style := ImageStyle.backgroundUrl u } },
          ?_, rfl, rfl, rfl, h3⟩
  simp [runDelayed, jsToString, h3]

/-- Witness for C2: the concrete response of the spec's test property,
success 1 with file url "https://x/y.png", fired from a loading state. -/
theorem upload_success_path_witness :
    ({ success := 1, file := some { url := some "https://x/y.png", extra := [] } }
        : ResponseBody).success = 1 ∧
    ("https://x/y.png" : String) ≠ "" ∧
    (LOADER_DELAY = 500 ∧
      (uploaderDispatch
          (UploadOutcome.response
            { success := 1, file := some { url := some "https://x/y.png", extra := [] } })
          { imageNode := { hasLoaderClass := true, style := ImageStyle.backgroundNone }
            image := none, notifierCalls := [], uploadRequests := 1 }).2 =
        [(LOADER_DELAY, Delayed.showFull)] ∧
      (uploaderDispatch
          (UploadOutcome.response
            { success := 1, file := some { url := some "https://x/y.png", extra := [] } })
          { imageNode := { hasLoaderClass := true, style := ImageStyle.backgroundNone }
            image := none, notifierCalls := [], uploadRequests := 1 }).1.image =
        some { url := some "https://x/y.png", extra := [] } ∧
      (uploaderDispatch
          (UploadOutcome.response
            { success := 1, file := some { url := some "https://x/y.png", extra := [] } })
          { imageNode := { hasLoaderClass := true, style := ImageStyle.backgroundNone }
            image := none, notifierCalls := [], uploadRequests := 1 }).1.notifierCalls =
        ([] : List Notification) ∧
      (∃ s2 : BlockState,
        runDelayed Delayed.showFull
            (uploaderDispatch
                (UploadOutcome.response
                  { success := 1,
                    file := some { url := some "https://x/y.png", extra := [] } })
                { imageNode :=
                    { hasLoaderClass := true, style := ImageStyle.backgroundNone }
                  image := none, notifierCalls := [], uploadRequests := 1 }).1 =
          Except.ok s2 ∧
        s2.imageNode =
          { hasLoaderClass := false,
            style := ImageStyle.backgroundUrl "https://x/y.png" } ∧
        visualStateOf s2.imageNode = VisualState.Loaded ∧
        s2.image = some { url := some "https://x/y.png", extra := [] } ∧
        ({ url := some "https://x/y.png", extra := [] } : FileRecord).url =
          some "https://x/y.png")) :=
  ⟨rfl, by decide,
   upload_success_path
     { success := 1, file := some { url := some "https://x/y.png", extra := [] } }
     { url := some "https://x/y.png", extra := [] } "https://x/y.png"
     { imageNode := { hasLoaderClass := true, style := ImageStyle.backgroundNone }
       image := none, notifierCalls := [], uploadRequests := 1 }
     rfl rfl rfl (by decide)⟩

/-- The click handler of the delete control, src/src/index.js lines
281-287: synchronously calls `setImagePlaceholder()` and sets
`this.data.image = null`; it schedules nothing and starts no upload. -/
def deleteImageClick (s : BlockState) : BlockState × List (Nat × Delayed) :=
  ({ s with imageNode := setImagePlaceholder s.imageNode, image := none }, [])

/-- C5 counterexample: with a non-null image but an upload still in flight
(the loader class present, reachable by clicking the image region to
re-upload while an image is set), clicking delete does not yield the Empty
visual state — the loader class is untouched, so the state is Loading. -/
theorem delete_click_during_loading_not_empty :
    ({ imageNode := { hasLoaderClass := true, style := ImageStyle.backgroundNone }
       image := some { url := some "https://a/b.png", extra := [] }
       notifierCalls := [], uploadRequests := 2 } : BlockState).image.isSome = true ∧
    visualStateOf
        (deleteImageClick
          { imageNode := { hasLoaderClass := true, style := ImageStyle.backgroundNone }
            image := some { url := some "https://a/b.png", extra := [] }
            notifierCalls := [], uploadRequests := 2 }).1.imageNode =
      VisualState.Loading :=
  ⟨rfl, rfl⟩

/-- C5 amended: whenever `data.image` is non-null and the loading
indicator is not displayed, clicking the delete control synchronously
(no scheduled timeout) sets `data.image` to null and restores the
placeholder — the Empty visual state — starting no upload request and
raising no notification; if an upload is in flight the image is still
cleared and the placeholder background set, but the loader class remains.
-/
theorem delete_click_clears_image (s : BlockState)
    (_h1 : s.image.isSome = true) (h2 : s.imageNode.hasLoaderClass = false) :
    (deleteImageClick s).2 = [] ∧
    (deleteImageClick s).1.image = none ∧
    (deleteImageClick s).1.imageNode.style = ImageStyle.placeholder ∧
    visualStateOf (deleteImageClick s).1.imageNode = VisualState.Empty ∧
    (deleteImageClick s).1.uploadRequests = s.uploadRequests ∧
    (deleteImageClick s).1.notifierCalls = s.notifierCalls := by
  refine ⟨rfl, rfl, rfl, ?_, rfl, rfl⟩
  simp [deleteImageClick, setImagePlaceholder, visualStateOf, h2]

/-- Witness for C5 at a concrete Loaded state. -/
theorem delete_click_clears_image_witness :
    ({ imageNode :=
         { hasLoaderClass := false, style := ImageStyle.backgroundUrl "https://a/b.png" }
       image := some { url := some "https://a/b.png", extra := [] }
       notifierCalls := [], uploadRequests := 1 } : BlockState).image.isSome = true ∧
    (deleteImageClick
        { imageNode :=
            { hasLoaderClass := false, style := ImageStyle.backgroundUrl "https://a/b.png" }
          image := some { url := some "https://a/b.png", extra := [] }
          notifierCalls := [], uploadRequests := 1 }).1.image = none ∧
    visualStateOf
        (deleteImageClick
          { imageNode :=
              { hasLoaderClass := false, style := ImageStyle.backgroundUrl "https://a/b.png" }
            image := some { url := some "https://a/b.png", extra := [] }
            notifierCalls := [], uploadRequests := 1 }).1.imageNode =
      VisualState.Empty := by
  have h := delete_click_clears_image
    { imageNode :=
        { hasLoaderClass := false, style := ImageStyle.backgroundUrl "https://a/b.png" }
      image := some { url := some "https://a/b.png", extra := [] }
      notifierCalls := [], uploadRequests := 1 } rfl rfl
  exact ⟨rfl, h.2.1, h.2.2.2.1⟩

end ParagraphImage
